import Mathlib

/-!
Verification development for the GLSL declaration extractor in
jglsl_shader.hpp (class jglsl_shader_c).

The source buffer is modelled as a `List Char` with `Nat` offsets; every
C loop is embedded either with a self-sufficient fuel bound (for the
inner loops, each of which strictly advances a cursor that is bounded by
the buffer length) or with an explicit fuel parameter returning `Option`
(for the outer loops, one of which genuinely fails to terminate on some
inputs).  All definitions follow the C source line by line.
-/

/-- Characters of a string literal, used to write concrete source buffers. -/
def chars (s : String) : List Char := s.data

/-- Read code[i].  Every read in the embedded code is guarded by i < length,
so the out-of-range default is never observable. -/
def getc (code : List Char) (i : Nat) : Char := code.getD i (Char.ofNat 0)

/-- C isspace over the standard ASCII whitespace set. -/
def isspace (c : Char) : Bool :=
  c = ' ' || c = '\t' || c = '\n' || c = '\x0b' || c = '\x0c' || c = '\r'

/-- Loop at jglsl_shader.hpp:99.  while ((ptr < len) && isspace(code[ptr])) ++ptr.
Fueled structurally; each iteration requires ptr < len and increments ptr, so
fuel length+1 can never run out before the loop condition fails. -/
def skipSpacesF : Nat → List Char → Nat → Nat
  | 0, _, ptr => ptr
  | f+1, code, ptr =>
    if ptr < code.length ∧ isspace (getc code ptr) = true then
      skipSpacesF f code (ptr+1)
    else ptr

def skipSpaces (code : List Char) (ptr : Nat) : Nat :=
  skipSpacesF (code.length + 1) code ptr

/-- Loop at jglsl_shader.hpp:106 (line comment).  The source condition is
(code[ptr] != LF) || (code[ptr] != CR), reproduced verbatim. -/
def skipLineF : Nat → List Char → Nat → Nat
  | 0, _, ptr => ptr
  | f+1, code, ptr =>
    if ptr < code.length ∧ (getc code ptr ≠ '\n' ∨ getc code ptr ≠ '\r') then
      skipLineF f code (ptr+1)
    else ptr

def skipLine (code : List Char) (ptr : Nat) : Nat :=
  skipLineF (code.length + 1) code ptr

/-- Loop at jglsl_shader.hpp:110 (block comment body).  The source condition
is (ptr+1 < len) && (code[ptr] != STAR && code[ptr+1] != SLASH), verbatim. -/
def skipBlockF : Nat → List Char → Nat → Nat
  | 0, _, ptr => ptr
  | f+1, code, ptr =>
    if ptr + 1 < code.length ∧ (getc code ptr ≠ '*' ∧ getc code (ptr+1) ≠ '/') then
      skipBlockF f code (ptr+1)
    else ptr

def skipBlock (code : List Char) (ptr : Nat) : Nat :=
  skipBlockF (code.length + 1) code ptr

/-- skip_ws (jglsl_shader.hpp:91-121).  The outer while runs until an
iteration sets done = true; an iteration that finds code[ptr] equal to the
slash character always clears done, even when no comment opener follows and
ptr did not advance, so the outer loop need not terminate: hence fuel,
with `none` meaning the C loop is still running. -/
def skip_ws : Nat → List Char → Nat → Option Nat
  | 0, _, _ => none
  | fuel+1, code, ptr =>
    if ptr < code.length then
      let p1 := skipSpaces code ptr
      if p1 + 1 < code.length ∧ getc code p1 = '/' then
        if getc code (p1+1) = '/' then
          skip_ws fuel code (skipLine code (p1+1))
        else if getc code (p1+1) = '*' then
          let p2 := skipBlock code (p1+2)
          let p3 := if p2 + 1 < code.length ∧ (getc code p2 = '*' ∧ getc code (p2+1) = '/')
                    then p2 + 2 else p2
          skip_ws fuel code p3
        else
          skip_ws fuel code p1
      else some p1
    else some ptr

/-- next_tok (jglsl_shader.hpp:123-132): collect characters until whitespace
or one of the delimiters.  Fueled structurally with self-sufficient fuel. -/
def next_tokF : Nat → List Char → Nat → List Char × Nat
  | 0, _, ptr => ([], ptr)
  | f+1, code, ptr =>
    if ptr < code.length ∧ isspace (getc code ptr) = false ∧ getc code ptr ≠ ';'
        ∧ getc code ptr ≠ '\x7b' ∧ getc code ptr ≠ '\x7d' ∧ getc code ptr ≠ ','
        ∧ getc code ptr ≠ '/' ∧ getc code ptr ≠ '[' then
      let r := next_tokF f code (ptr+1)
      (getc code ptr :: r.1, r.2)
    else ([], ptr)

def next_tok (code : List Char) (ptr : Nat) : List Char × Nat :=
  next_tokF (code.length + 1) code ptr

/-- First index at or after the head of hay where needle occurs (absolute
index accumulated in i); models the search done by strstr. -/
def findSubAux (needle : List Char) : List Char → Nat → Option Nat
  | [], i => if needle.isPrefixOf [] then some i else none
  | c :: rest, i =>
    if needle.isPrefixOf (c :: rest) then some i
    else findSubAux needle rest (i+1)

/-- strstr(code + start, needle), returned as an absolute index into code. -/
def strstrFrom (code needle : List Char) (start : Nat) : Option Nat :=
  (findSubAux needle (code.drop start) 0).map (fun j => j + start)

/-- is_builtin_type (jglsl_shader.hpp:134-148): exact match against the base
types, substring match (std::string::find) against the complex types. -/
def is_builtin_type (s : List Char) (base_types complex_types : List (List Char)) : Bool :=
  base_types.any (fun b => s = b)
    || complex_types.any (fun c => (findSubAux c s 0).isSome)

/-- Base builtin types registered by import_std_builtin_types
(jglsl_shader.hpp:341-355), in registration order. -/
def std_base_types : List (List Char) :=
  [chars "int", chars "uint", chars "bool", chars "float", chars "double",
   chars "atomic_uint"]

/-- Complex (fragment-match) builtin types registered by
import_std_builtin_types. -/
def std_complex_types : List (List Char) :=
  [chars "vec", chars "mat", chars "image", chars "sampler"]

/-- Struct table: name to flattened field paths, modelling
std::map<std::string, std::vector<std::string>> through its lookup/insert
behaviour. -/
abbrev StructTable : Type := List (List Char × List (List Char))

/-- get_struct_field (jglsl_shader.hpp:150-153): lookup by name. -/
def get_struct_field (name : List Char) (structs : StructTable) :
    Option (List (List Char)) :=
  List.lookup name structs

/-- std::map::insert (jglsl_shader.hpp:239): inserts only when the key is
not already present. -/
def mapInsert (structs : StructTable) (k : List Char) (v : List (List Char)) :
    StructTable :=
  match List.lookup k structs with
  | some _ => structs
  | none => structs ++ [(k, v)]

/-- Bracket-skipping loop at jglsl_shader.hpp:231 and 308:
while ((offs < len) && (code[offs] != RBRACKET)) ++offs. -/
def skipToBracketF : Nat → List Char → Nat → Nat
  | 0, _, o => o
  | f+1, code, o =>
    if o < code.length ∧ getc code o ≠ ']' then skipToBracketF f code (o+1) else o

def skipToBracket (code : List Char) (o : Nat) : Nat :=
  skipToBracketF (code.length + 1) code o

/-- Struct body loop of parse_structures (jglsl_shader.hpp:191-236).  One
fuel unit per iteration; `none` means a nested skip_ws diverged or fuel ran
out.  Returns the accumulated field paths and the exit offset. -/
def structBody (code : List Char) (base_types complex_types : List (List Char))
    (structs : StructTable) :
    Nat → Nat → List (List Char) → Option (List (List Char) × Nat)
  | 0, _, _ => none
  | fuel+1, offs, fields =>
    if offs < code.length then
      match skip_ws fuel code offs with
      | none => none
      | some o1 =>
        if o1 ≥ code.length then some (fields, o1)
        else if getc code o1 = '\x7d' then some (fields, o1)
        else
          let t1 := next_tok code o1
          let cont : List (List Char) → Nat → Option (List (List Char) × Nat) :=
            fun fs o2 =>
              match skip_ws fuel code o2 with
              | none => none
              | some o3 =>
                if o3 ≥ code.length then some (fs, o3)
                else
                  let o4 :=
                    if getc code o3 = ',' then o3 + 1
                    else if getc code o3 = ';' then o3 + 1
                    else if getc code o3 = '[' then
                      let o5 := skipToBracket code (o3 + 1)
                      if o5 < code.length then
                        o5 + (if getc code o5 = ']' then 1 else 0)
                      else o5
                    else o3
                  structBody code base_types complex_types structs fuel o4 fs
          if is_builtin_type t1.1 base_types complex_types = true then
            match skip_ws fuel code t1.2 with
            | none => none
            | some o2 =>
              if o2 ≥ code.length then some (fields, o2)
              else
                let t2 := next_tok code o2
                cont (fields ++ [t2.1]) t2.2
          else
            match get_struct_field t1.1 structs with
            | some fl =>
              match skip_ws fuel code t1.2 with
              | none => none
              | some o2 =>
                if o2 ≥ code.length then some (fields, o2)
                else
                  let t2 := next_tok code o2
                  cont (fields ++ fl.map (fun p => t2.1 ++ '.' :: p)) t2.2
            | none =>
              cont (fields ++ [t1.1]) t1.2
    else some (fields, offs)

/-- Outer loop of parse_structures (jglsl_shader.hpp:162-244).  searchIdx
models the pcode pointer, offs the loop variable used by the for condition.
All the early `return` statements of the source yield `some structs`. -/
def parseStructLoop (code : List Char) (base_types complex_types : List (List Char)) :
    Nat → Nat → Nat → StructTable → Option StructTable
  | 0, _, _, _ => none
  | fuel+1, searchIdx, offs, structs =>
    if offs < code.length then
      match strstrFrom code (chars "struct") searchIdx with
      | none => some structs
      | some p =>
        match skip_ws fuel code (p + 6) with
        | none => none
        | some o1 =>
          if o1 ≥ code.length then some structs
          else
            let t1 := next_tok code o1
            if t1.2 ≥ code.length then some structs
            else
              match skip_ws fuel code t1.2 with
              | none => none
              | some o2 =>
                if o2 ≥ code.length then some structs
                else if getc code o2 ≠ '\x7b' then some structs
                else
                  match skip_ws fuel code (o2 + 1) with
                  | none => none
                  | some o3 =>
                    if o3 ≥ code.length then some structs
                    else
                      match structBody code base_types complex_types structs fuel o3 [] with
                      | none => none
                      | some r =>
                        let structs' :=
                          if r.2 < code.length ∧ getc code r.2 = '\x7d' then
                            mapInsert structs t1.1 r.1
                          else structs
                        if r.2 + 2 ≥ code.length then some structs'
                        else parseStructLoop code base_types complex_types fuel
                               (r.2 + 2) r.2 structs'
    else some structs

/-- parse_structures (jglsl_shader.hpp:156-245), starting with pcode = code,
offs = 0 and an empty table. -/
def parse_structures (fuel : Nat) (code : List Char)
    (base_types complex_types : List (List Char)) : Option StructTable :=
  parseStructLoop code base_types complex_types fuel 0 0 []

/-- Variable-name loop of parse_vars (jglsl_shader.hpp:282-313).  sf is the
struct_fld pointer: `none` on the builtin path, `some fieldPaths` on the
struct path.  Returns the grown result list and the exit offset. -/
def varLoop (code : List Char) (sf : Option (List (List Char))) :
    Nat → Nat → List (List Char) → Option (List (List Char) × Nat)
  | 0, _, _ => none
  | fuel+1, o, res =>
    if o < code.length then
      match skip_ws fuel code o with
      | none => none
      | some o1 =>
        if o1 ≥ code.length then some (res, o1)
        else if getc code o1 = ';' then some (res, o1)
        else
          let t := next_tok code o1
          let res' :=
            match sf with
            | some fl => res ++ fl.map (fun p => t.1 ++ '.' :: p)
            | none => res ++ [t.1]
          match skip_ws fuel code t.2 with
          | none => none
          | some o3 =>
            if o3 ≥ code.length then some (res', o3)
            else
              let o4 :=
                if getc code o3 = ',' then o3 + 1
                else if getc code o3 = '[' then
                  let o5 := skipToBracket code (o3 + 1)
                  if o5 < code.length then
                    o5 + (if getc code o5 = ']' then 1 else 0)
                  else o5
                else o3
              varLoop code sf fuel o4 res'
    else some (res, o)

/-- Outer loop of parse_vars (jglsl_shader.hpp:257-315).  searchIdx models
pcode, offs the for-condition variable.  The `continue` on an unresolvable
type re-enters the loop with the search cursor just past the match. -/
def parseVarsLoop (code kw : List Char) (base_types complex_types : List (List Char))
    (structs : StructTable) :
    Nat → Nat → Nat → List (List Char) → Option (List (List Char))
  | 0, _, _, _ => none
  | fuel+1, searchIdx, offs, res =>
    if offs < code.length then
      match strstrFrom code kw searchIdx with
      | none => some res
      | some p =>
        match skip_ws fuel code (p + kw.length) with
        | none => none
        | some o1 =>
          if o1 ≥ code.length then some res
          else
            let t1 := next_tok code o1
            if is_builtin_type t1.1 base_types complex_types = true then
              match varLoop code none fuel t1.2 res with
              | none => none
              | some r =>
                parseVarsLoop code kw base_types complex_types structs fuel r.2 p r.1
            else
              match get_struct_field t1.1 structs with
              | none =>
                parseVarsLoop code kw base_types complex_types structs fuel
                  (p + kw.length) p res
              | some fl =>
                match varLoop code (some fl) fuel t1.2 res with
                | none => none
                | some r =>
                  parseVarsLoop code kw base_types complex_types structs fuel r.2 p r.1
    else some res

/-- parse_vars (jglsl_shader.hpp:247-318): build the struct table, then scan
for the qualifier keyword, appending extracted names to res. -/
def parse_vars (fuel : Nat) (res : List (List Char)) (field_name code : List Char)
    (base_types complex_types : List (List Char)) : Option (List (List Char)) :=
  match parse_structures fuel code base_types complex_types with
  | none => none
  | some structs =>
    parseVarsLoop code field_name base_types complex_types structs fuel 0 0 res

/-- State of jglsl_shader_c relevant to symbol lookup and loading
(jglsl_shader.hpp:79-87).  GL handles are modelled as Nat; the two lookup
tables are modelled by their lookup behaviour as association lists. -/
structure jglsl_shader_c where
  m_attributes : List (List Char × Nat)
  m_uniforms : List (List Char × Nat)
  m_builtin_types : List (List Char)
  m_complex_builtin_types : List (List Char)
  m_pending_uniforms : List (List Char)
  m_pending_attributes : List (List Char)
  m_shaders : List Nat
  m_log_buffer : List Char

/-- get_attribute (jglsl_shader.hpp:379-382): a map find that defaults to
handle 0.  std::map::find does not modify the map, so the state is returned
unchanged alongside the handle. -/
def get_attribute (s : jglsl_shader_c) (attr : List Char) : Nat × jglsl_shader_c :=
  (match List.lookup attr s.m_attributes with
   | some v => v
   | none => 0, s)

/-- get_uniform (jglsl_shader.hpp:384-387), same shape as get_attribute. -/
def get_uniform (s : jglsl_shader_c) (uni : List Char) : Nat × jglsl_shader_c :=
  (match List.lookup uni s.m_uniforms with
   | some v => v
   | none => 0, s)

/-- load (jglsl_shader.hpp:397-426).  The GL calls are external collaborators:
the compile status (res != GL_FALSE), the fresh shader handle tmp and the
driver info log are parameters.  Both parse_vars calls run before the status
check; on failure the info log is appended to m_log_buffer with the LD:
prefix and a trailing newline, on success tmp is pushed onto m_shaders. -/
def load (fuel : Nat) (compile_ok : Bool) (tmp : Nat) (gl_log : List Char)
    (s : jglsl_shader_c) (code : List Char) : Option (Bool × jglsl_shader_c) :=
  match parse_vars fuel s.m_pending_uniforms (chars "uniform") code
      s.m_builtin_types s.m_complex_builtin_types with
  | none => none
  | some pu =>
    match parse_vars fuel s.m_pending_attributes (chars "attribute") code
        s.m_builtin_types s.m_complex_builtin_types with
    | none => none
    | some pa =>
      let s1 := { s with m_pending_uniforms := pu, m_pending_attributes := pa }
      if compile_ok then
        some (true, { s1 with m_shaders := s1.m_shaders ++ [tmp] })
      else
        some (false,
          { s1 with m_log_buffer := s1.m_log_buffer ++ chars "LD:" ++ gl_log ++ ['\n'] })

/-- Helper: when no suffix of hay starts with kw, the strstr search finds
nothing. -/
theorem findSubAux_eq_none (kw hay : List Char) (i : Nat)
    (h : ∀ j, j < hay.length + 1 → kw.isPrefixOf (hay.drop j) = false) :
    findSubAux kw hay i = none := by
  induction hay generalizing i with
  | nil =>
    have h0 := h 0 (by omega)
    simp only [List.drop_zero] at h0
    simp [findSubAux, h0]
  | cons c rest ih =>
    have h0 := h 0 (by omega)
    simp only [List.drop_zero] at h0
    simp only [findSubAux, h0]
    simp only [Bool.false_eq_true, if_false]
    exact ih (i+1) (fun j hj => by
      have := h (j+1) (by simpa using hj)
      simpa using this)

/-- Claim C1.  The claim states that skip_ws positioned at a line comment
consumes characters through end-of-line only, stopping at the first LF or CR
so that text on subsequent lines remains to be scanned.  The code disagrees:
the loop condition (code[ptr] != LF) || (code[ptr] != CR) is true of every
character, so on the buffer "//x\ny" (length 5, LF at offset 3) skip_ws
consumes through end-of-buffer and returns 5, swallowing the y line that the
claim says must remain scannable. -/
theorem skip_ws_line_comment_overruns_newline :
    skip_ws 10 (chars "//x\ny") 0 = some 5 ∧
    getc (chars "//x\ny") 3 = '\n' ∧ (chars "//x\ny").length = 5 := by decide

/-- Claim C2.  The claim states that skip_ws always terminates, in
particular on a buffer containing a slash that does not open a comment.  The
code disagrees: when the cursor rests on a slash followed by neither a second
slash nor a star, the iteration clears done without advancing ptr, so the
outer while loop repeats the same state forever.  On the buffer "/x" the
fueled model never completes, for any amount of fuel. -/
theorem skip_ws_diverges_on_noncomment_slash :
    ∀ fuel, skip_ws fuel (chars "/x") 0 = none := by
  intro fuel
  induction fuel with
  | zero => rfl
  | succ f ih =>
    exact (show skip_ws (f+1) (chars "/x") 0 = skip_ws f (chars "/x") 0 from rfl).trans ih

/-- Claim C3.  The claim states that skip_ws positioned at a block comment
opener consumes through the closing star-slash even when the body contains
star or slash characters.  The code disagrees: the body loop condition uses
&& where the intent requires ||, so it halts at the first lone star (or just
before a lone slash) in the body.  On "/*a*b*/x" (the x sits at offset 7,
right after the terminator) skip_ws returns 3, inside the comment body,
instead of consuming through the terminator and resuming at 7. -/
theorem skip_ws_block_comment_stops_inside_body :
    skip_ws 10 (chars "/*a*b*/x") 0 = some 3 ∧
    getc (chars "/*a*b*/x") 7 = 'x' ∧ (chars "/*a*b*/x").length = 8 := by decide

/-- Claim C4, counterexample.  The claim states that a struct occurrence not
followed by an opening brace is dropped alone, and that later well-formed
struct definitions are still parsed and committed.  On the source
"struct Bad ; struct Good { float x; };" the builder returns an empty table:
Good is absent, even though the same definition of Good parsed on its own
does commit an entry (third conjunct). -/
theorem parse_structures_missing_brace_drops_later_structs :
    (parse_structures 100 (chars "struct Bad ; struct Good \x7b float x; \x7d;")
        std_base_types std_complex_types).bind (get_struct_field (chars "Good"))
      = none ∧
    parse_structures 100 (chars "struct Bad ; struct Good \x7b float x; \x7d;")
      std_base_types std_complex_types = some [] ∧
    parse_structures 100 (chars "struct Good \x7b float x; \x7d;")
      std_base_types std_complex_types = some [(chars "Good", [chars "x"])] := by decide

/-- Claim C4, amended.  When a struct match, after whitespace/comment
skipping and a name token, is not followed by an opening brace at a
position inside the buffer, the struct table builder aborts the entire
scan: it returns exactly the table accumulated so far, so the malformed
struct gets no entry and no later struct definition is parsed either. -/
theorem parse_structures_missing_brace_aborts_scan
    (code : List Char) (base_types complex_types : List (List Char))
    (fuel searchIdx offs : Nat) (structs : StructTable) (p o1 o2 : Nat)
    (hoffs : offs < code.length)
    (hfind : strstrFrom code (chars "struct") searchIdx = some p)
    (h1 : skip_ws fuel code (p + 6) = some o1)
    (h1l : o1 < code.length)
    (h2l : (next_tok code o1).2 < code.length)
    (h3 : skip_ws fuel code (next_tok code o1).2 = some o2)
    (h3l : o2 < code.length)
    (h4 : getc code o2 ≠ '\x7b') :
    parseStructLoop code base_types complex_types (fuel+1) searchIdx offs structs
      = some structs := by
  simp only [parseStructLoop, if_pos hoffs, hfind, h1, h3,
    if_neg (Nat.not_le.mpr h1l), if_neg (Nat.not_le.mpr h2l),
    if_neg (Nat.not_le.mpr h3l), if_pos h4]

/-- Claim C4, witness for the amended theorem, at the counterexample source:
the match at 0, the name token Bad ending at 10 and the semicolon at 11 meet
every hypothesis, and the scan returns the accumulated (empty) table. -/
theorem parse_structures_missing_brace_aborts_scan_witness :
    parseStructLoop (chars "struct Bad ; struct Good \x7b float x; \x7d;")
      std_base_types std_complex_types 31 0 0 [] = some [] :=
  parse_structures_missing_brace_aborts_scan _ _ _ 30 0 0 [] 0 7 11
    (by decide) (by decide) (by decide) (by decide) (by decide) (by decide)
    (by decide) (by decide)

/-- Claim C5.  On the nested-struct source, extraction with the keyword
uniform appends exactly the two flattened paths test.f.a2 and test.e, in
field declaration order, the struct-in-struct flattening having happened in
the table builder. -/
theorem parse_vars_nested_struct_flattening :
    parse_vars 100 [] (chars "uniform")
      (chars "struct Inner \x7b float a2; \x7d; struct Outer \x7b Inner f; float e; \x7d; uniform Outer test;")
      std_base_types std_complex_types
      = some [chars "test.f.a2", chars "test.e"] := by decide

/-- Claim C6.  On the builtin declaration with a comma list and an array
bracket group, extraction with the keyword uniform yields exactly the bare
names a then b; the bracket group [4] is skipped and appears in no result. -/
theorem parse_vars_comma_list_and_array :
    parse_vars 100 [] (chars "uniform") (chars "uniform float a, b[4];")
      std_base_types std_complex_types = some [chars "a", chars "b"] := by decide

/-- Claim C7.  For every source in which no suffix starts with the qualifier
keyword (the keyword does not occur), parse_vars appends nothing: whenever
the fueled run completes it returns the result sequence unchanged, and
otherwise (fuel exhausted, covering the runs on which the underlying scan
never finishes) it returns nothing at all — in no case is the caller's
sequence extended. -/
theorem parse_vars_no_keyword_is_no_op
    (fuel : Nat) (res : List (List Char))
    (kw code base_types complex_types : _)
    (h : ∀ j, j < code.length + 1 → kw.isPrefixOf (code.drop j) = false) :
    parse_vars fuel res kw code base_types complex_types = none ∨
    parse_vars fuel res kw code base_types complex_types = some res := by
  unfold parse_vars
  cases hps : parse_structures fuel code base_types complex_types with
  | none => exact Or.inl rfl
  | some structs =>
    cases fuel with
    | zero => exact Or.inl rfl
    | succ f =>
      right
      have hs : strstrFrom code kw 0 = none := by
        unfold strstrFrom
        rw [List.drop_zero, findSubAux_eq_none kw code 0 h]
        rfl
      by_cases h0 : 0 < code.length
      · simp only [parseVarsLoop, if_pos h0, hs]
      · simp only [parseVarsLoop, if_neg h0]

/-- Claim C7, witness: on the source "float x;", which contains no
occurrence of uniform, a seeded result list comes back exactly as it went
in. -/
theorem parse_vars_no_keyword_is_no_op_witness :
    parse_vars 50 [chars "seed"] (chars "uniform") (chars "float x;")
      std_base_types std_complex_types = none ∨
    parse_vars 50 [chars "seed"] (chars "uniform") (chars "float x;")
      std_base_types std_complex_types = some [chars "seed"] :=
  parse_vars_no_keyword_is_no_op 50 [chars "seed"] (chars "uniform")
    (chars "float x;") std_base_types std_complex_types (by decide)

/-- Claim C8.  On a buffer holding only the unterminated "struct Foo " and
an opening brace, the builder terminates (the fueled run completes), returns
the table accumulated so far — the empty table — and records no entry for
Foo; the embedding reads the buffer only through total list indexing with
every access guarded by the length, mirroring the bounds checks of the
source. -/
theorem parse_structures_unterminated_struct_safe :
    parse_structures 100 (chars "struct Foo \x7b") std_base_types std_complex_types
      = some [] ∧
    (parse_structures 100 (chars "struct Foo \x7b") std_base_types
        std_complex_types).bind (get_struct_field (chars "Foo")) = none := by decide

/-- Claim C9.  For every shader state and every path that is not a key of
the respective lookup table, get_uniform and get_attribute return the
default handle 0 and leave the state — in particular the table — unchanged. -/
theorem get_uniform_get_attribute_unknown_default
    (s : jglsl_shader_c) (path : List Char)
    (hu : List.lookup path s.m_uniforms = none)
    (ha : List.lookup path s.m_attributes = none) :
    get_uniform s path = (0, s) ∧ get_attribute s path = (0, s) := by
  unfold get_uniform get_attribute
  rw [hu, ha]
  exact ⟨rfl, rfl⟩

/-- Claim C9, witness: looking up the path foo in a state with empty tables
returns the default handle and the unchanged state. -/
theorem get_uniform_get_attribute_unknown_default_witness :
    get_uniform ⟨[], [], [], [], [], [], [], []⟩ (chars "foo")
        = (0, ⟨[], [], [], [], [], [], [], []⟩) ∧
    get_attribute ⟨[], [], [], [], [], [], [], []⟩ (chars "foo")
        = (0, ⟨[], [], [], [], [], [], [], []⟩) :=
  get_uniform_get_attribute_unknown_default _ _ rfl rfl

/-- Claim C10.  Both parse_vars calls of load run before the compile status
is inspected, so the pending-uniform and pending-attribute sequences after
load do not depend on the compile status (nor on the external handle or
info log): a failing load grows them exactly as a succeeding one does. -/
theorem load_pending_growth_independent_of_compile_status
    (fuel tmp1 tmp2 : Nat) (g1 g2 : List Char) (ok1 ok2 : Bool)
    (s : jglsl_shader_c) (code : List Char) :
    (load fuel ok1 tmp1 g1 s code).map
        (fun r => (r.2.m_pending_uniforms, r.2.m_pending_attributes))
      = (load fuel ok2 tmp2 g2 s code).map
        (fun r => (r.2.m_pending_uniforms, r.2.m_pending_attributes)) := by
  unfold load
  cases hpu : parse_vars fuel s.m_pending_uniforms (chars "uniform") code
      s.m_builtin_types s.m_complex_builtin_types with
  | none => rfl
  | some pu =>
    cases hpa : parse_vars fuel s.m_pending_attributes (chars "attribute") code
        s.m_builtin_types s.m_complex_builtin_types with
    | none => rfl
    | some pa => cases ok1 <;> cases ok2 <;> rfl
